import Mathlib

/-!
Verification of the detached external-process execution subsystem of the
`jean` repository (`src-tauri/src/chat/detached.rs`).

Strings are embedded as `List Char` (`Str`); Rust `Path` values are embedded
as `Option Str`, mirroring `Path::to_str` (`none` = not valid UTF-8).  The
operating-system effects of a spawn call (whether the shell process started,
what it printed, its exit status, ...) are abstracted as explicit "world"
records, and the side effects the subsystem performs are recorded as an event
trace returned next to the `Result`.
-/

set_option maxHeartbeats 1000000

/-- Strings, embedded as lists of characters. -/
abbrev Str := List Char

/-- The single-quote character `'` (code 39). -/
def squote : Char := Char.ofNat 39

/-- The backslash character `\` (code 92). -/
def bslash : Char := Char.ofNat 92

/-- The newline character (code 10). -/
def nlChar : Char := Char.ofNat 10

/-- The backtick character (code 96). -/
def btick : Char := Char.ofNat 96

/-- The double-quote character (code 34). -/
def dquote : Char := Char.ofNat 34

/-- Embedding of Rust `str::replace(pat, rep)`: scan left to right, replace
each non-overlapping occurrence of `pat` by `rep`.  (Rust's behaviour for an
empty pattern — inserting `rep` at every char boundary — is irrelevant here
and this embedding leaves the string unchanged in that case; the only call
site uses the one-character pattern `"'"`.) -/
def replaceStr (pat rep : Str) (s : Str) : Str :=
  match s with
  | [] => []
  | c :: rest =>
    if h : pat ≠ [] ∧ pat.isPrefixOf (c :: rest) = true then
      rep ++ replaceStr pat rep (List.drop pat.length (c :: rest))
    else
      c :: replaceStr pat rep rest
termination_by s.length
decreasing_by
  · have hp : 0 < pat.length := List.length_pos.mpr h.1
    simp only [List.length_drop, List.length_cons]
    omega
  · simp only [List.length_cons]
    omega

/-- Embedding of `shell_escape` (detached.rs lines 19–22):
`format!("'{}'", s.replace('\'', "'\\''"))`. -/
def shell_escape (s : Str) : Str :=
  "'".data ++ replaceStr "'".data "'\\''".data s ++ "'".data

/-- Per-character description of the quoting used by `shell_escape`, following
the spec's words (§4.3): a single quote becomes the 4-character sequence
close-quote, escaped literal quote, reopen-quote; any other character is kept. -/
def escQuoteChar (c : Char) : Str :=
  if c = squote then [squote, bslash, squote, squote] else [c]

/-- Spec-side body of the escaped token: every character expanded by
`escQuoteChar`. -/
def escBody (s : Str) : Str :=
  (s.map escQuoteChar).flatten

/-- Embedding of the `args_str` binding (detached.rs lines 68–72):
`args.iter().map(|arg| shell_escape(arg)).collect::<Vec<_>>().join(" ")`. -/
def args_str (args : List Str) : Str :=
  List.intercalate " ".data (args.map shell_escape)

/-- Embedding of the `env_exports` binding (detached.rs lines 75–79):
`env_vars.iter().map(|(k, v)| format!("{}={}", k, shell_escape(v))).collect::<Vec<_>>().join(" ")`. -/
def env_exports (env_vars : List (Str × Str)) : Str :=
  List.intercalate " ".data
    (env_vars.map (fun kv => kv.1 ++ "=".data ++ shell_escape kv.2))

/-- Embedding of the `shell_cmd` binding (detached.rs lines 84–92): the
composed command line, with the environment segment present exactly when the
joined `env_exports` string is non-empty. -/
def shell_cmd (cli_path input_file output_file : Str) (args : List Str)
    (env_vars : List (Str × Str)) : Str :=
  if env_exports env_vars = [] then
    "cat ".data ++ shell_escape input_file ++ " | nohup ".data
      ++ shell_escape cli_path ++ " ".data ++ args_str args
      ++ " >> ".data ++ shell_escape output_file ++ " 2>&1 & echo $!".data
  else
    "cat ".data ++ shell_escape input_file ++ " | ".data ++ env_exports env_vars
      ++ " nohup ".data ++ shell_escape cli_path ++ " ".data ++ args_str args
      ++ " >> ".data ++ shell_escape output_file ++ " 2>&1 & echo $!".data

/-- Embedding of Rust `str::trim`: drop leading and trailing whitespace.  (The
PID lines this is applied to are ASCII, so `Char.isWhitespace` is an adequate
model of Rust's Unicode `char::is_whitespace`.) -/
def trim (s : Str) : Str :=
  ((s.dropWhile Char.isWhitespace).reverse.dropWhile Char.isWhitespace).reverse

/-- Embedding of Rust `str::parse::<u32>`: an optional leading `+`, then at
least one ASCII digit, value below `2 ^ 32`; anything else is a parse error
(`none`). -/
def parseU32 (s : Str) : Option Nat :=
  let ds := match s with
    | c :: rest => if c = '+' then rest else c :: rest
    | [] => []
  if ds = [] then none
  else if ds.all (fun c => c.isDigit) then
    let n := ds.foldl (fun acc c => acc * 10 + (c.toNat - 48)) 0
    if n < 2 ^ 32 then some n else none
  else none

/-- Embedding of the PID-line loop (detached.rs lines 116–127): `pid_str`
starts empty; the first `Ok` line, trimmed, is taken and the loop breaks;
`Err` lines are logged and skipped. -/
def pidCandidate : List (Except Unit Str) → Str
  | [] => []
  | Except.ok l :: _ => trim l
  | Except.error _ :: rest => pidCandidate rest

/-- Embedding of `.lines().map_while(Result::ok)` (detached.rs line 143):
collect lines up to the first read error. -/
def mapWhileOk : List (Except Unit Str) → List Str
  | Except.ok l :: rest => l :: mapWhileOk rest
  | _ => []

/-- Failure cases of `spawn_detached_claude` on both platforms.  The Rust code
returns formatted `String` messages; each constructor stands for one of them
and carries the data interpolated into the message where a claim refers to it.
- `invalidCliPath`: "CLI path contains invalid UTF-8"
- `invalidInputPath`: "Input file path contains invalid UTF-8"
- `invalidOutputPath`: "Output file path contains invalid UTF-8"
- `shellSpawnFailure`: "Failed to spawn shell: _"
- `stdoutCaptureFailure`: "Failed to capture shell stdout"
- `waitFailure`: "Failed to wait for shell: _"
- `shellFailure status stderr`: "Shell command failed with status: _\nStderr: _"
- `pidParseFailure raw`: "Failed to parse PID '_': _"
- `outputOpenFailure`: "Failed to open output file: _"
- `cloneFailure`: "Failed to clone output file handle: _"
- `spawnFailure`: "Failed to spawn Claude CLI: _"
- `inputReadFailure`: "Failed to read input file: _"
- `stdinWriteFailure`: "Failed to write to stdin: _" -/
inductive SpawnErr
  | invalidCliPath
  | invalidInputPath
  | invalidOutputPath
  | shellSpawnFailure
  | stdoutCaptureFailure
  | waitFailure
  | shellFailure (status : Nat) (stderr : Str)
  | pidParseFailure (raw : Str)
  | outputOpenFailure
  | cloneFailure
  | spawnFailure
  | inputReadFailure
  | stdinWriteFailure
  deriving DecidableEq

/-- The error is one of the three invalid-UTF-8 path errors. -/
def IsInvalidPath (e : SpawnErr) : Prop :=
  e = SpawnErr.invalidCliPath ∨ e = SpawnErr.invalidInputPath
    ∨ e = SpawnErr.invalidOutputPath

deriving instance DecidableEq for Except

/-- Observable behaviour of the operating system on the Unix path: whether
`sh -c` could be spawned, whether its stdout/stderr handles were obtained,
the lines read from them (`Except.error` = an I/O read error on that line),
whether waiting succeeded, and the shell's exit code (`0` = `status.success()`). -/
structure ShellWorld where
  spawnOk : Bool
  stdoutCaptured : Bool
  stdoutLines : List (Except Unit Str)
  waitOk : Bool
  stderrCaptured : Bool
  stderrLines : List (Except Unit Str)
  exitCode : Nat
  deriving DecidableEq

/-- Side effects performed by the Unix spawner: launching `sh -c` with the
composed command line.  (No other external effect exists on this path.) -/
inductive UnixEvent
  | launchedShell (cmd : Str)
  deriving DecidableEq

namespace Unix

/-- Embedding of the Unix `spawn_detached_claude` (detached.rs lines 32–162).
Paths arrive as `Option Str` (the result of `Path::to_str`); `working_dir` is
only handed to the OS (`current_dir`) and does not influence the modelled
result, so it is not a parameter.  The returned trace records the spawn
attempt of the launching shell. -/
def spawn_detached_claude (cli_path input_file output_file : Option Str)
    (args : List Str) (env_vars : List (Str × Str)) (w : ShellWorld) :
    Except SpawnErr Nat × List UnixEvent :=
  match cli_path with
  | none => (Except.error SpawnErr.invalidCliPath, [])
  | some cli =>
    match input_file with
    | none => (Except.error SpawnErr.invalidInputPath, [])
    | some inp =>
      match output_file with
      | none => (Except.error SpawnErr.invalidOutputPath, [])
      | some out =>
        let cmd := shell_cmd cli inp out args env_vars
        let ev : List UnixEvent := [UnixEvent.launchedShell cmd]
        if w.spawnOk then
          if w.stdoutCaptured then
            let pid_str := pidCandidate w.stdoutLines
            if w.waitOk then
              if w.exitCode = 0 then
                match parseU32 pid_str with
                | some pid => (Except.ok pid, ev)
                | none => (Except.error (SpawnErr.pidParseFailure pid_str), ev)
              else
                let stderr_output :=
                  if w.stderrCaptured then
                    List.intercalate "\n".data (mapWhileOk w.stderrLines)
                  else []
                (Except.error (SpawnErr.shellFailure w.exitCode stderr_output), ev)
            else (Except.error SpawnErr.waitFailure, ev)
          else (Except.error SpawnErr.stdoutCaptureFailure, ev)
        else (Except.error SpawnErr.shellSpawnFailure, ev)

end Unix

/-- Observable behaviour of the operating system on the Windows path: whether
the output file opened, whether its handle cloned, whether `claude.exe`
spawned (and with which PID), the content of the input file (`none` = read
failure), whether the child's stdin handle was piped, and whether writing to
it succeeded. -/
structure WinWorld where
  outputOpenOk : Bool
  cloneOk : Bool
  spawnOk : Bool
  pid : Nat
  inputRead : Option Str
  stdinPiped : Bool
  stdinWriteOk : Bool
  deriving DecidableEq

/-- Side effects performed by the Windows spawner.  `killedChild` exists so
that "the subsystem never attempts to kill the child" is expressible; the
embedding (like the source) never emits it. -/
inductive WinEvent
  | spawnedChild
  | wroteStdin
  | killedChild
  deriving DecidableEq

namespace Windows

/-- Embedding of the Windows `spawn_detached_claude` (detached.rs lines
170–237): open output file (append), clone the handle for stderr, spawn
`claude.exe` directly, take the PID, read the input file, write it to the
child's stdin, and return the PID.  The request data (paths, args, env vars)
only flows into the OS effects abstracted by `WinWorld`, so the function is
stated over the world alone; the trace records child spawn and the stdin
write attempt. -/
def spawn_detached_claude (w : WinWorld) : Except SpawnErr Nat × List WinEvent :=
  if w.outputOpenOk then
    if w.cloneOk then
      if w.spawnOk then
        match w.inputRead with
        | none => (Except.error SpawnErr.inputReadFailure, [WinEvent.spawnedChild])
        | some _ =>
          if w.stdinPiped then
            if w.stdinWriteOk then
              (Except.ok w.pid, [WinEvent.spawnedChild, WinEvent.wroteStdin])
            else
              (Except.error SpawnErr.stdinWriteFailure,
                [WinEvent.spawnedChild, WinEvent.wroteStdin])
          else (Except.ok w.pid, [WinEvent.spawnedChild])
      else (Except.error SpawnErr.spawnFailure, [])
    else (Except.error SpawnErr.cloneFailure, [])
  else (Except.error SpawnErr.outputOpenFailure, [])

end Windows

/-- States of the POSIX word parser: outside quoting, inside single quotes,
or immediately after an unquoted backslash. -/
inductive PState
  | normal
  | single
  | escaped
  deriving DecidableEq

/-- Characters that, unquoted, either terminate a word, start another quoting
or expansion mechanism, or are otherwise special to a POSIX shell.  The word
parser below refuses them in the unquoted state, so a word it accepts is a
plain literal. -/
def isShellSpecial (c : Char) : Bool :=
  c = ' ' || c = '\t' || c = nlChar || c = '|' || c = '&' || c = ';'
    || c = '<' || c = '>' || c = '(' || c = ')' || c = '$' || c = btick
    || c = dquote || c = '*' || c = '?' || c = '[' || c = '#' || c = '~'

/-- Modelled from the spec ("accepted by the target shell as a single literal
token", §8): POSIX single-quote and backslash word parsing.  Returns the
literal value of the token when the whole input is one plain word — single
quotes make every character up to the closing quote literal, an unquoted
backslash makes the next character literal (backslash–newline is a removed
line continuation), unquoted special characters and unterminated quoting are
rejected. -/
def parseWordAux : PState → Str → Option Str
  | PState.normal, [] => some []
  | PState.single, [] => none
  | PState.escaped, [] => none
  | PState.normal, c :: rest =>
    if c = squote then parseWordAux PState.single rest
    else if c = bslash then parseWordAux PState.escaped rest
    else if isShellSpecial c then none
    else (parseWordAux PState.normal rest).map (fun t => c :: t)
  | PState.single, c :: rest =>
    if c = squote then parseWordAux PState.normal rest
    else (parseWordAux PState.single rest).map (fun t => c :: t)
  | PState.escaped, c :: rest =>
    if c = nlChar then parseWordAux PState.normal rest
    else (parseWordAux PState.normal rest).map (fun t => c :: t)

/-- A whole token parsed as one shell word, starting unquoted. -/
def parseShellWord (s : Str) : Option Str :=
  parseWordAux PState.normal s

/-- The shell outcome observed when the executable path names a non-existent
file on the Unix path: `&` backgrounds the pipeline before any `exec`
happens, `echo $!` prints the background job's PID on the first stdout line,
and the launching shell exits with status 0 — the `exec` failure occurs
asynchronously inside the detached job and is only written to the output
file. -/
def badExeWorld : ShellWorld :=
  { spawnOk := true
    stdoutCaptured := true
    stdoutLines := [Except.ok "4242".data]
    waitOk := true
    stderrCaptured := true
    stderrLines := []
    exitCode := 0 }

theorem bslash_ne_squote : bslash ≠ squote := by decide

theorem squote_ne_nl : squote ≠ nlChar := by decide

theorem replaceStr_nil (pat rep : Str) : replaceStr pat rep [] = [] := by
  simp [replaceStr]

theorem replaceStr_cons_quote (rep rest : Str) :
    replaceStr [squote] rep (squote :: rest) = rep ++ replaceStr [squote] rep rest := by
  rw [replaceStr]
  rw [dif_pos]
  · simp
  · refine ⟨by simp, ?_⟩
    simp [List.isPrefixOf]

theorem replaceStr_cons_other (rep : Str) (c : Char) (hc : c ≠ squote) (rest : Str) :
    replaceStr [squote] rep (c :: rest) = c :: replaceStr [squote] rep rest := by
  rw [replaceStr]
  rw [dif_neg]
  intro h
  have h2 := h.2
  simp [List.isPrefixOf] at h2
  exact hc h2.symm

theorem shell_escape_eq (s : Str) :
    shell_escape s
      = [squote] ++ replaceStr [squote] [squote, bslash, squote, squote] s ++ [squote] := by
  have h1 : "'".data = [squote] := by decide
  have h2 : "'\\''".data = [squote, bslash, squote, squote] := by decide
  rw [shell_escape, h1, h2]

theorem replaceStr_quote_eq_escBody (s : Str) :
    replaceStr [squote] [squote, bslash, squote, squote] s = escBody s := by
  induction s with
  | nil => simp [replaceStr_nil, escBody]
  | cons c rest ih =>
    by_cases hc : c = squote
    · subst hc
      rw [replaceStr_cons_quote, ih]
      simp [escBody, escQuoteChar]
    · rw [replaceStr_cons_other _ _ hc, ih]
      simp [escBody, escQuoteChar, hc]

theorem shell_escape_charwise (s : Str) :
    shell_escape s = squote :: escBody s ++ [squote] := by
  rw [shell_escape_eq, replaceStr_quote_eq_escBody]
  simp

/-- C3: for every string `s`, `shell_escape s` wraps `s` in single quotes and
replaces each single quote inside `s` by the 4-character sequence
close-quote, escaped literal quote, reopen-quote (`escQuoteChar`); in
particular the four documented examples hold:
`shell_escape "hello" = "'hello'"`, `shell_escape "it's" = "'it'\\''s'"`,
`shell_escape "" = "''"` and `shell_escape "a b" = "'a b'"`. -/
theorem shell_escape_spec :
    (∀ s : Str, shell_escape s = [squote] ++ escBody s ++ [squote])
      ∧ shell_escape "hello".data = "'hello'".data
      ∧ shell_escape "it's".data = "'it'\\''s'".data
      ∧ shell_escape "".data = "''".data
      ∧ shell_escape "a b".data = "'a b'".data := by
  refine ⟨fun s => ?_, ?_, ?_, ?_, ?_⟩
  · rw [shell_escape_charwise]
    simp
  all_goals rw [shell_escape_charwise]
  all_goals decide

theorem escBody_cons (c : Char) (rest : Str) :
    escBody (c :: rest) = escQuoteChar c ++ escBody rest := by
  simp [escBody]

theorem parse_single_escBody (s : Str) :
    parseWordAux PState.single (escBody s ++ [squote]) = some s := by
  induction s with
  | nil => simp [escBody, parseWordAux]
  | cons c rest ih =>
    rw [escBody_cons]
    by_cases hc : c = squote
    · subst hc
      have he : escQuoteChar squote = [squote, bslash, squote, squote] := by
        simp [escQuoteChar]
      rw [he]
      simp [parseWordAux, ih, bslash_ne_squote, squote_ne_nl]
    · have he : escQuoteChar c = [c] := by simp [escQuoteChar, hc]
      rw [he]
      simp [parseWordAux, ih, hc]

/-- C4: round-trip — for every string `s`, the token `shell_escape s` is
parsed by the POSIX word-parsing rules (`parseShellWord`) as one single plain
literal word whose value is exactly `s`. -/
theorem shell_escape_roundtrip : ∀ s : Str, parseShellWord (shell_escape s) = some s := by
  intro s
  rw [shell_escape_charwise]
  show parseWordAux PState.normal (squote :: (escBody s ++ [squote])) = some s
  simp [parseWordAux, parse_single_escBody]

theorem envPair_ne_nil (kv : Str × Str) :
    kv.1 ++ "=".data ++ shell_escape kv.2 ≠ [] := by
  rw [shell_escape_charwise]
  simp

theorem env_exports_eq_nil_iff (env_vars : List (Str × Str)) :
    env_exports env_vars = [] ↔ env_vars = [] := by
  cases env_vars with
  | nil => simp [env_exports, List.intercalate]
  | cons kv rest =>
    simp only [env_exports, List.map_cons]
    cases rest with
    | nil =>
      simp only [List.intercalate, List.intersperse, List.flatten]
      simp [envPair_ne_nil kv]
    | cons kv2 rest2 =>
      simp only [List.intercalate, List.intersperse, List.flatten]
      simp [envPair_ne_nil kv]

/-- C1: on the POSIX variant, for every spawn request with UTF-8-representable
paths, the launching shell receives exactly one command line of the shape
`cat <input> | [<ENV=VAL> ...] nohup <exe> <args...> >> <output> 2>&1 & echo $!`,
in which the input path, the executable path, each argument, and the output
path are each passed individually through `shell_escape`; when the
environment-override list is empty, the `<ENV=VAL>` segment is omitted
entirely. -/
theorem shell_cmd_shape (cli inp out : Str) (args : List Str)
    (env_vars : List (Str × Str)) (w : ShellWorld) :
    (Unix.spawn_detached_claude (some cli) (some inp) (some out) args env_vars w).2
        = [UnixEvent.launchedShell (shell_cmd cli inp out args env_vars)]
      ∧ shell_cmd cli inp out args env_vars
        = "cat ".data ++ shell_escape inp ++ " | ".data
          ++ (if env_vars = [] then []
              else List.intercalate " ".data
                  (env_vars.map (fun kv => kv.1 ++ "=".data ++ shell_escape kv.2))
                ++ " ".data)
          ++ "nohup ".data ++ shell_escape cli ++ " ".data
          ++ List.intercalate " ".data (args.map shell_escape)
          ++ " >> ".data ++ shell_escape out ++ " 2>&1 & echo $!".data := by
  constructor
  · simp only [Unix.spawn_detached_claude]
    cases h1 : w.spawnOk with
    | false => simp [h1]
    | true =>
      cases h2 : w.stdoutCaptured with
      | false => simp [h1, h2]
      | true =>
        cases h3 : w.waitOk with
        | false => simp [h1, h2, h3]
        | true =>
          by_cases h4 : w.exitCode = 0
          · simp only [h1, h2, h3, h4, if_true, if_pos]
            cases hp : parseU32 (pidCandidate w.stdoutLines) with
            | none => simp [hp]
            | some pid => simp [hp]
          · simp [h1, h2, h3, h4]
  · by_cases he : env_vars = []
    · subst he
      simp only [shell_cmd]
      rw [if_pos ((env_exports_eq_nil_iff []).mpr rfl)]
      simp [args_str, List.append_assoc]
    · simp only [shell_cmd]
      rw [if_neg (fun hc => he ((env_exports_eq_nil_iff env_vars).mp hc))]
      rw [if_neg he]
      simp [args_str, env_exports, List.append_assoc]

/-- C10: in the composed POSIX command, environment-override names are
embedded verbatim while only the values are escaped — each emitted segment is
exactly `name ++ "=" ++ shell_escape value` — so a name containing spaces or
shell metacharacters (here `"A B$"`) enters the command line unquoted and
unescaped. -/
theorem env_name_unescaped :
    (∀ env_vars : List (Str × Str),
        env_exports env_vars
          = List.intercalate " ".data
              (env_vars.map (fun kv => kv.1 ++ "=".data ++ shell_escape kv.2)))
      ∧ (∀ k v : Str, env_exports [(k, v)] = k ++ "=".data ++ shell_escape v)
      ∧ env_exports [("A B$".data, "x".data)] = "A B$='x'".data
      ∧ shell_cmd "/usr/bin/claude".data "in f".data "out f".data []
          [("A B$".data, "x".data)]
        = "cat 'in f' | A B$='x' nohup '/usr/bin/claude'  >> 'out f' 2>&1 & echo $!".data := by
  refine ⟨fun env_vars => rfl, fun k v => ?_, ?_, ?_⟩
  · simp [env_exports, List.intercalate, List.intersperse]
  · simp only [env_exports, List.map_cons, List.map_nil, List.intercalate,
      List.intersperse, List.flatten, shell_escape_charwise]
    decide
  · simp only [shell_cmd]
    rw [if_neg (fun hc => by
      have := (env_exports_eq_nil_iff [("A B$".data, "x".data)]).mp hc
      exact absurd this (by decide))]
    simp only [env_exports, args_str, List.map_cons, List.map_nil,
      List.intercalate, List.intersperse, List.flatten, shell_escape_charwise]
    decide

theorem pidCandidate_first_ok (pre : List (Except Unit Str)) (l : Str)
    (post : List (Except Unit Str))
    (hpre : ∀ x ∈ pre, ∃ e, x = Except.error e) :
    pidCandidate (pre ++ Except.ok l :: post) = trim l := by
  induction pre with
  | nil => simp [pidCandidate]
  | cons x rest ih =>
    obtain ⟨e, he⟩ := hpre x (by simp)
    subst he
    simp only [List.cons_append, pidCandidate]
    exact ih (fun y hy => hpre y (by simp [hy]))

theorem pidCandidate_all_errors (lines : List (Except Unit Str))
    (h : ∀ x ∈ lines, ∃ e, x = Except.error e) :
    pidCandidate lines = [] := by
  induction lines with
  | nil => simp [pidCandidate]
  | cons x rest ih =>
    obtain ⟨e, he⟩ := h x (by simp)
    subst he
    simp only [pidCandidate]
    exact ih (fun y hy => h y (by simp [hy]))

/-- C5: on the POSIX variant (paths valid, shell spawned, stdout captured,
wait succeeded, shell exited 0), the candidate PID string is the first
successfully read stdout line, trimmed, with later lines ignored (and empty
when every read failed), and the call returns that candidate parsed as an
unsigned integer — failing with a PID-parse error carrying the raw candidate
when it does not parse. -/
theorem pid_line_parse (cli inp out : Str) (args : List Str)
    (env_vars : List (Str × Str)) (w : ShellWorld)
    (h1 : w.spawnOk = true) (h2 : w.stdoutCaptured = true)
    (h3 : w.waitOk = true) (h4 : w.exitCode = 0) :
    (∀ pre l post, (∀ x ∈ pre, ∃ e, x = Except.error e) →
        w.stdoutLines = pre ++ Except.ok l :: post →
        pidCandidate w.stdoutLines = trim l)
      ∧ ((∀ x ∈ w.stdoutLines, ∃ e, x = Except.error e) →
          pidCandidate w.stdoutLines = [])
      ∧ (Unix.spawn_detached_claude (some cli) (some inp) (some out) args env_vars w).1
        = (match parseU32 (pidCandidate w.stdoutLines) with
           | some pid => Except.ok pid
           | none => Except.error (SpawnErr.pidParseFailure (pidCandidate w.stdoutLines))) := by
  refine ⟨fun pre l post hp hw => ?_, fun h => pidCandidate_all_errors _ h, ?_⟩
  · rw [hw]
    exact pidCandidate_first_ok pre l post hp
  · simp only [Unix.spawn_detached_claude, h1, h2, h3, h4, if_true]
    cases parseU32 (pidCandidate w.stdoutLines) <;> simp

/-- Shell world for the C5 witness: one failed stdout read, then the line
`  4242  `, then a further line that must be ignored. -/
def pidWorld : ShellWorld :=
  { spawnOk := true
    stdoutCaptured := true
    stdoutLines := [Except.error (), Except.ok "  4242  ".data, Except.ok "9".data]
    waitOk := true
    stderrCaptured := true
    stderrLines := []
    exitCode := 0 }

theorem pid_line_parse_witness :
    pidCandidate pidWorld.stdoutLines = trim "  4242  ".data
      ∧ (Unix.spawn_detached_claude (some "c".data) (some "i".data) (some "o".data)
          [] [] pidWorld).1 = Except.ok 4242 := by
  have h := pid_line_parse "c".data "i".data "o".data [] [] pidWorld rfl rfl rfl rfl
  refine ⟨h.1 [Except.error ()] "  4242  ".data [Except.ok "9".data] (by simp) rfl, ?_⟩
  rw [h.2.2]
  decide

/-- C6: on the POSIX variant (paths valid, shell spawned, handles captured,
wait succeeded), a shell-failure error is returned precisely when the shell
exited non-zero; in that case the error carries the exit status together with
the buffered stderr lines and no PID is returned, while on a zero exit no
shell-failure error is produced and execution proceeds to PID parsing. -/
theorem shell_exit_status_failure (cli inp out : Str) (args : List Str)
    (env_vars : List (Str × Str)) (w : ShellWorld)
    (h1 : w.spawnOk = true) (h2 : w.stdoutCaptured = true)
    (h3 : w.waitOk = true) (h5 : w.stderrCaptured = true) :
    ((∃ st e, (Unix.spawn_detached_claude (some cli) (some inp) (some out) args env_vars w).1
          = Except.error (SpawnErr.shellFailure st e)) ↔ w.exitCode ≠ 0)
      ∧ (w.exitCode ≠ 0 →
          (Unix.spawn_detached_claude (some cli) (some inp) (some out) args env_vars w).1
            = Except.error (SpawnErr.shellFailure w.exitCode
                (List.intercalate "\n".data (mapWhileOk w.stderrLines)))
          ∧ ∀ pid, (Unix.spawn_detached_claude (some cli) (some inp) (some out) args env_vars w).1
              ≠ Except.ok pid)
      ∧ (w.exitCode = 0 →
          (Unix.spawn_detached_claude (some cli) (some inp) (some out) args env_vars w).1
            = (match parseU32 (pidCandidate w.stdoutLines) with
               | some pid => Except.ok pid
               | none => Except.error (SpawnErr.pidParseFailure (pidCandidate w.stdoutLines)))) := by
  by_cases h4 : w.exitCode = 0
  · have hres :
        (Unix.spawn_detached_claude (some cli) (some inp) (some out) args env_vars w).1
          = (match parseU32 (pidCandidate w.stdoutLines) with
             | some pid => Except.ok pid
             | none => Except.error (SpawnErr.pidParseFailure (pidCandidate w.stdoutLines))) := by
      simp only [Unix.spawn_detached_claude, h1, h2, h3, h4, if_true]
      cases parseU32 (pidCandidate w.stdoutLines) <;> simp
    refine ⟨⟨?_, fun hne => absurd h4 hne⟩, fun hne => absurd h4 hne, fun _ => hres⟩
    rintro ⟨st, e, hst⟩
    rw [hres] at hst
    cases hp : parseU32 (pidCandidate w.stdoutLines) <;> rw [hp] at hst <;> cases hst
  · have hres :
        (Unix.spawn_detached_claude (some cli) (some inp) (some out) args env_vars w).1
          = Except.error (SpawnErr.shellFailure w.exitCode
              (List.intercalate "\n".data (mapWhileOk w.stderrLines))) := by
      simp only [Unix.spawn_detached_claude, h1, h2, h3, if_true]
      rw [if_neg h4]
      simp [h5]
    refine ⟨⟨fun _ => h4, fun _ => ⟨w.exitCode, _, hres⟩⟩,
      fun _ => ⟨hres, fun pid hok => by rw [hres] at hok; cases hok⟩,
      fun h0 => absurd h0 h4⟩

/-- Shell world for the C6 witness: shell exited 127 after printing two
stderr lines, of which only those before the read error are buffered. -/
def exitFailWorld : ShellWorld :=
  { spawnOk := true
    stdoutCaptured := true
    stdoutLines := [Except.ok "77".data]
    waitOk := true
    stderrCaptured := true
    stderrLines := [Except.ok "sh: no".data, Except.ok "such".data, Except.error ()]
    exitCode := 127 }

theorem shell_exit_status_failure_witness :
    (Unix.spawn_detached_claude (some "c".data) (some "i".data) (some "o".data)
        [] [] exitFailWorld).1
      = Except.error (SpawnErr.shellFailure 127
          (List.intercalate "\n".data (mapWhileOk exitFailWorld.stderrLines)))
      ∧ ∀ pid, (Unix.spawn_detached_claude (some "c".data) (some "i".data) (some "o".data)
          [] [] exitFailWorld).1 ≠ Except.ok pid := by
  have h := shell_exit_status_failure "c".data "i".data "o".data [] [] exitFailWorld
    rfl rfl rfl rfl
  exact h.2.1 (by decide)

/-- C7: on the POSIX variant, if any of the executable, input or output paths
is not valid UTF-8, the call fails with an invalid-path error and the event
trace is empty — no shell (and hence no child) was launched before the error
was returned. -/
theorem invalid_path_no_launch (cli_path input_file output_file : Option Str)
    (args : List Str) (env_vars : List (Str × Str)) (w : ShellWorld)
    (h : cli_path = none ∨ input_file = none ∨ output_file = none) :
    (∃ e, (Unix.spawn_detached_claude cli_path input_file output_file args env_vars w).1
        = Except.error e ∧ IsInvalidPath e)
      ∧ (Unix.spawn_detached_claude cli_path input_file output_file args env_vars w).2 = [] := by
  rcases h with h | h | h
  · subst h
    exact ⟨⟨SpawnErr.invalidCliPath, rfl, Or.inl rfl⟩, rfl⟩
  · subst h
    cases cli_path with
    | none => exact ⟨⟨SpawnErr.invalidCliPath, rfl, Or.inl rfl⟩, rfl⟩
    | some c => exact ⟨⟨SpawnErr.invalidInputPath, rfl, Or.inr (Or.inl rfl)⟩, rfl⟩
  · subst h
    cases cli_path with
    | none => exact ⟨⟨SpawnErr.invalidCliPath, rfl, Or.inl rfl⟩, rfl⟩
    | some c =>
      cases input_file with
      | none => exact ⟨⟨SpawnErr.invalidInputPath, rfl, Or.inr (Or.inl rfl)⟩, rfl⟩
      | some i => exact ⟨⟨SpawnErr.invalidOutputPath, rfl, Or.inr (Or.inr rfl)⟩, rfl⟩

theorem invalid_path_no_launch_witness :
    (∃ e, (Unix.spawn_detached_claude none (some "i".data) (some "o".data) [] [] pidWorld).1
        = Except.error e ∧ IsInvalidPath e)
      ∧ (Unix.spawn_detached_claude none (some "i".data) (some "o".data) [] [] pidWorld).2
        = [] :=
  invalid_path_no_launch none (some "i".data) (some "o".data) [] [] pidWorld (Or.inl rfl)

/-- C9 counterexample: with a non-existent executable path, the launching
shell still backgrounds the pipeline, echoes a PID and exits 0
(`badExeWorld`), so the call succeeds with that PID instead of returning a
failure — refuting the claim that such a request yields a failure. -/
theorem nonexistent_exe_success_cex :
    (Unix.spawn_detached_claude (some "/nonexistent/claude".data) (some "/tmp/in".data)
        (some "/tmp/out".data) [] [] badExeWorld).1 = Except.ok 4242
      ∧ ∀ e : SpawnErr,
        (Unix.spawn_detached_claude (some "/nonexistent/claude".data) (some "/tmp/in".data)
            (some "/tmp/out".data) [] [] badExeWorld).1 ≠ Except.error e := by
  have h : (Unix.spawn_detached_claude (some "/nonexistent/claude".data) (some "/tmp/in".data)
      (some "/tmp/out".data) [] [] badExeWorld).1 = Except.ok 4242 := by decide
  exact ⟨h, fun e hc => by rw [h] at hc; cases hc⟩

/-- C9 amended: on the POSIX variant, whenever the launching shell reports
success (exit 0) and its first stdout line parses as a PID — which is exactly
the observable outcome for a non-existent executable, since `&` backgrounds
the pipeline before any `exec` can fail — `spawn_detached_claude` returns
that PID successfully; the executable's absence is not detected by this call
and only shows up later in the output file or through the liveness probe. -/
theorem nonexistent_exe_returns_pid (cli inp out : Str) (args : List Str)
    (env_vars : List (Str × Str)) (w : ShellWorld) (pid : Nat)
    (h1 : w.spawnOk = true) (h2 : w.stdoutCaptured = true)
    (h3 : w.waitOk = true) (h4 : w.exitCode = 0)
    (h5 : parseU32 (pidCandidate w.stdoutLines) = some pid) :
    (Unix.spawn_detached_claude (some cli) (some inp) (some out) args env_vars w).1
      = Except.ok pid := by
  simp only [Unix.spawn_detached_claude, h1, h2, h3, h4, if_true]
  rw [h5]

theorem nonexistent_exe_returns_pid_witness :
    (Unix.spawn_detached_claude (some "/nonexistent/claude".data) (some "/tmp/in".data)
        (some "/tmp/out".data) [] [] badExeWorld).1 = Except.ok 4242 :=
  nonexistent_exe_returns_pid "/nonexistent/claude".data "/tmp/in".data "/tmp/out".data
    [] [] badExeWorld 4242 rfl rfl rfl rfl (by decide)

/-- Windows world for C2: output opened, handle cloned and child spawned
successfully, but the input file is missing or unreadable. -/
def winInputMissingWorld : WinWorld :=
  { outputOpenOk := true
    cloneOk := true
    spawnOk := true
    pid := 7
    inputRead := none
    stdinPiped := true
    stdinWriteOk := true }

/-- C2 counterexample: with a missing input file the Windows variant does
return an input-read failure, but the child process has already been spawned
at that point — refuting the claim that no spawn of the target executable has
occurred whenever the result is an input-read error. -/
theorem input_read_before_spawn_cex :
    (Windows.spawn_detached_claude winInputMissingWorld).1
        = Except.error SpawnErr.inputReadFailure
      ∧ WinEvent.spawnedChild ∈ (Windows.spawn_detached_claude winInputMissingWorld).2 := by
  decide

/-- C2 amended: on the Windows variant, if the input file is missing or
unreadable (and the earlier stages — output open, handle clone, spawn —
succeeded), `spawn_detached_claude` fails with an input-read failure and no
stdin write is attempted, but the child process has already been created when
this error is returned, because the input file is read only after spawning. -/
theorem input_read_failure_after_spawn (w : WinWorld)
    (h1 : w.outputOpenOk = true) (h2 : w.cloneOk = true) (h3 : w.spawnOk = true)
    (h4 : w.inputRead = none) :
    (Windows.spawn_detached_claude w).1 = Except.error SpawnErr.inputReadFailure
      ∧ WinEvent.spawnedChild ∈ (Windows.spawn_detached_claude w).2
      ∧ WinEvent.wroteStdin ∉ (Windows.spawn_detached_claude w).2 := by
  simp [Windows.spawn_detached_claude, h1, h2, h3, h4]

theorem input_read_failure_after_spawn_witness :
    (Windows.spawn_detached_claude winInputMissingWorld).1
        = Except.error SpawnErr.inputReadFailure
      ∧ WinEvent.spawnedChild ∈ (Windows.spawn_detached_claude winInputMissingWorld).2
      ∧ WinEvent.wroteStdin ∉ (Windows.spawn_detached_claude winInputMissingWorld).2 :=
  input_read_failure_after_spawn winInputMissingWorld rfl rfl rfl rfl

/-- C8: on the Windows variant, a stdin-write error only arises after the
child exists — whenever the call returns a stdin-write error, the child
process has been spawned, no kill of the child was attempted, and no PID is
returned to the caller. -/
theorem stdin_write_error_post_spawn (w : WinWorld)
    (h : (Windows.spawn_detached_claude w).1 = Except.error SpawnErr.stdinWriteFailure) :
    WinEvent.spawnedChild ∈ (Windows.spawn_detached_claude w).2
      ∧ WinEvent.killedChild ∉ (Windows.spawn_detached_claude w).2
      ∧ ∀ pid, (Windows.spawn_detached_claude w).1 ≠ Except.ok pid := by
  cases h1 : w.outputOpenOk <;> cases h2 : w.cloneOk <;> cases h3 : w.spawnOk
    <;> rcases h4 : w.inputRead with _ | d
    <;> cases h5 : w.stdinPiped <;> cases h6 : w.stdinWriteOk
    <;> simp_all [Windows.spawn_detached_claude]

/-- Windows world for C8: everything up to and including the spawn succeeds,
stdin is piped, but writing the input data to it fails. -/
def winStdinFailWorld : WinWorld :=
  { outputOpenOk := true
    cloneOk := true
    spawnOk := true
    pid := 7
    inputRead := some "d".data
    stdinPiped := true
    stdinWriteOk := false }

theorem stdin_write_error_post_spawn_witness :
    WinEvent.spawnedChild ∈ (Windows.spawn_detached_claude winStdinFailWorld).2
      ∧ WinEvent.killedChild ∉ (Windows.spawn_detached_claude winStdinFailWorld).2
      ∧ ∀ pid, (Windows.spawn_detached_claude winStdinFailWorld).1 ≠ Except.ok pid :=
  stdin_write_error_post_spawn winStdinFailWorld (by decide)
